import Mathlib

/-!
Verification of the JobHive-server CV-analysis subsystem.

This file shallowly embeds the JavaScript source of the repository:
  * `src/services/openai.service.js` — retry loop, response parsing,
    fallback structure, response validation;
  * `src/controllers/cv-analyzer.controller.js` — upload, results,
    history, reanalyze, delete, performAnalysis, markAnalysisAsFailed;
  * the CVAnalysis mongoose model (schema defaults, instance methods
    `markAsCompleted`, `markAsFailed`, `softDelete`).

Modelling conventions: JavaScript objects parsed from JSON are modelled
by the inductive `JVal` (numbers as `Int`; the scores the code
manipulates are integers); `undefined` is modelled by `Option`;
`JSON.parse` is abstracted as a parameter `p : String → Option JVal`
(`none` models a parse that throws); MongoDB documents are Lean
structures and a collection is a `List` of them; wall-clock timestamps
(`new Date()`) are `Nat` parameters.
-/

namespace JobHive

/-- The `processingStatus` enum of the CVAnalysis schema
(`['pending', 'processing', 'completed', 'failed']`). -/
inductive Status where
  | pending
  | processing
  | completed
  | failed
deriving DecidableEq, Repr

/-- A JavaScript value as produced by `JSON.parse` (numbers restricted to
integers, which covers every score the service manipulates). -/
inductive JVal where
  | null
  | bool (b : Bool)
  | num (n : Int)
  | str (s : String)
  | arr (elems : List JVal)
  | obj (fields : List (String × JVal))

/-- A JavaScript object: ordered field list, as mutated by the service. -/
abbrev JObj := List (String × JVal)

/-- Property read `o[k]`; `none` models `undefined`. -/
def lookupField : JObj → String → Option JVal
  | [], _ => none
  | (k', v) :: rest, k => if k' = k then some v else lookupField rest k

/-- Property assignment `o[k] = v` (overwrites in place, appends if absent). -/
def setField : JObj → String → JVal → JObj
  | [], k, v => [(k, v)]
  | (k', v') :: rest, k, v =>
      if k' = k then (k, v) :: rest else (k', v') :: setField rest k v

/-- JavaScript truthiness of a value. -/
def JVal.truthy : JVal → Bool
  | .null => false
  | .bool b => b
  | .num n => n != 0
  | .str s => !s.isEmpty
  | .arr _ => true
  | .obj _ => true

/-- Truthiness of a possibly-`undefined` property (`undefined` is falsy). -/
def truthyOpt : Option JVal → Bool
  | none => false
  | some v => v.truthy

/-- The summary object installed by `validateResponseStructure` when
`response.summary` is falsy (openai.service.js lines 511-517). -/
def defaultSummary : JVal :=
  .obj [("strengths", .str "Analysis completed"),
        ("areasOfImprovement", .str "Review recommendations"),
        ("keyFindings", .str "CV analysis completed successfully")]

/-- The essential-field loop of `validateResponseStructure`: if the field
is not present (`'overallScore' in response` is false) install the
default (openai.service.js lines 498-508). -/
def ensurePresent (k : String) (d : JVal) (resp : JObj) : JObj :=
  if (lookupField resp k).isSome then resp else setField resp k d

/-- One `if (!response.k) response.k = d` step of `validateResponseStructure`
(openai.service.js lines 511-533). -/
def ensureTruthy (k : String) (d : JVal) (resp : JObj) : JObj :=
  if truthyOpt (lookupField resp k) then resp else setField resp k d

/-- The score-range step of `validateResponseStructure`: clamp
`overallScore` with `Math.max(0, Math.min(100, ·))` when it is a number,
otherwise replace it by 75 (openai.service.js lines 536-540). -/
def clampOverallScore (resp : JObj) : JObj :=
  match lookupField resp "overallScore" with
  | some (.num n) => setField resp "overallScore" (.num (max 0 (min 100 n)))
  | _ => setField resp "overallScore" (.num 75)

/-- `validateResponseStructure` (openai.service.js lines 496-543): default
the essential `overallScore`, install defaults for the five falsy
top-level containers, then clamp/default `overallScore`. Section scores
are never inspected. -/
def validateResponseStructure (resp : JObj) : JObj :=
  clampOverallScore
    (ensureTruthy "marketInsights" (.obj [])
      (ensureTruthy "jobMatching" (.obj [])
        (ensureTruthy "recommendations" (.arr [])
          (ensureTruthy "sections" (.obj [])
            (ensureTruthy "summary" defaultSummary
              (ensurePresent "overallScore" (.num 75) resp))))))

/-- `createFallbackStructure` (openai.service.js lines 463-489), the
degraded result built when no JSON can be recovered from the content. -/
def createFallbackStructure (content : String) : JVal :=
  .obj [("overallScore", .num 75),
        ("summary", .obj
          [("strengths", .str "CV analysis completed"),
           ("areasOfImprovement", .str "Please review the detailed analysis"),
           ("keyFindings", .str (content.take 500 ++ "..."))]),
        ("sections", .obj [("analysis", .str content)]),
        ("recommendations", .arr
          [.obj [("priority", .str "medium"),
                 ("category", .str "general"),
                 ("suggestion", .str "Please review the detailed analysis provided"),
                 ("impact", .str "General improvements recommended")]]),
        ("jobMatching", .obj [("compatibility", .num 75)]),
        ("marketInsights", .obj [("analysis", .str "Market analysis included in content")])]

/-- The opening-brace character, written by code point to keep string
literals brace-free. -/
def openBrace : Char := Char.ofNat 123

/-- The closing-brace character. -/
def closeBrace : Char := Char.ofNat 125

/-- The regex match `content.match(/\x7b[\s\S]*\x7d/)` of
`extractJsonFromContent`: greedy, so it spans from the first opening
brace to the last closing brace, and matches exactly when some closing
brace occurs after the first opening brace. -/
def braceMatch (content : String) : Option String :=
  let cs := content.toList
  match cs.findIdx? (· == openBrace), cs.reverse.findIdx? (· == closeBrace) with
  | some i, some jr =>
      let j := cs.length - 1 - jr
      if i < j then some (String.mk ((cs.drop i).take (j - i + 1))) else none
  | _, _ => none

/-- `extractJsonFromContent` (openai.service.js lines 440-456): try to
parse the brace-delimited substring; on no match, or when `JSON.parse`
of the match throws (`p` returns `none`), fall back to
`createFallbackStructure content`. -/
def extractJsonFromContent (p : String → Option JVal) (content : String) : JVal :=
  match braceMatch content with
  | some m =>
      match p m with
      | some v => v
      | none => createFallbackStructure content
  | none => createFallbackStructure content

/-- Outcome of `parseAndValidateResponse`: either the validated object or
a thrown `OpenAIServiceError` with its message. -/
inductive ParseResult where
  | ok (fields : JObj)
  | serviceError (msg : String)

/-- Applying `validateResponseStructure` to the parsed value: the JS code
mutates an object in place; a non-object parsed value makes the
`'overallScore' in response` check throw, which the surrounding catch
turns into an `OpenAIServiceError`. -/
def applyValidate : JVal → ParseResult
  | .obj fields => .ok (validateResponseStructure fields)
  | _ => .serviceError "Invalid response format from OpenAI"

/-- `parseAndValidateResponse` (openai.service.js lines 406-433).
`content?` is `response.choices[0]?.message?.content` (`none` when the
field is missing); a falsy content — missing or the empty string — makes
the code throw, which the catch wraps into `OpenAIServiceError`. -/
def parseAndValidateResponse (p : String → Option JVal) (content? : Option String) :
    ParseResult :=
  match content? with
  | none => .serviceError "Invalid response format from OpenAI"
  | some content =>
      if content.isEmpty then .serviceError "Invalid response format from OpenAI"
      else
        match p content with
        | some v => applyValidate v
        | none => applyValidate (extractJsonFromContent p content)

/-- Retry configuration of the `OpenAIService` constructor
(openai.service.js line 28): `this.retryAttempts = 3`. -/
def retryAttempts : Nat := 3

/-- Base delay in milliseconds (line 29): `this.retryDelay = 1000`. -/
def retryDelay : Nat := 1000

/-- Per-attempt delay cap in milliseconds (line 30):
`this.maxRetryDelay = 30000`. -/
def maxRetryDelay : Nat := 30000

/-- An error thrown by the OpenAI SDK call; `status` is the HTTP status
when one is attached (`none` models network/timeout errors that carry no
status, which `error.status &&` treats as falsy). -/
structure APIError where
  status : Option Nat
deriving DecidableEq, Repr

/-- `isNonRetryableError` (openai.service.js lines 396-399). -/
def isNonRetryableError (e : APIError) : Bool :=
  match e.status with
  | some s => [400, 401, 403, 404, 422].contains s
  | none => false

/-- Outcome of `makeAPICallWithRetry`: a successful response, an
immediately propagated non-retryable error, or exhaustion of all
attempts (which throws `OpenAIServiceError`). -/
inductive RetryResult (α : Type) where
  | success (v : α)
  | nonRetryable (e : APIError)
  | exhausted (lastError : APIError)

/-- The exponential backoff delay inserted after failed attempt number
`attempt` (openai.service.js lines 374-377):
`Math.min(retryDelay * 2 ** attempt, maxRetryDelay)`. -/
def backoffDelay (attempt : Nat) : Nat :=
  min (retryDelay * 2 ^ attempt) maxRetryDelay

/-- The retry loop of `makeAPICallWithRetry` (openai.service.js lines
355-383). `call i` is the outcome of the i-th SDK invocation; the result
also reports how many calls were made and the list of sleep delays
inserted between consecutive attempts, in order. -/
def runRetry {α : Type} (call : Nat → Except APIError α) (lastErr : APIError)
    (attempt : Nat) : Nat → RetryResult α × Nat × List Nat
  | 0 => (.exhausted lastErr, 0, [])
  | r + 1 =>
      match call attempt with
      | .ok v => (.success v, 1, [])
      | .error e =>
          if isNonRetryableError e then (.nonRetryable e, 1, [])
          else if r = 0 then (.exhausted e, 1, [])
          else
            let rest := runRetry call e (attempt + 1) r
            (rest.1, rest.2.1 + 1, backoffDelay attempt :: rest.2.2)

/-- `makeAPICallWithRetry` (openai.service.js lines 346-389): run the
loop for `retryAttempts` attempts starting at attempt 0. The initial
`lastError` placeholder is never consulted because `retryAttempts > 0`. -/
def makeAPICallWithRetry {α : Type} (call : Nat → Except APIError α) :
    RetryResult α × Nat × List Nat :=
  runRetry call ⟨none⟩ 0 retryAttempts

/-! Data model: the CVAnalysis mongoose schema. -/

/-- The `jobData` subdocument of the schema. -/
structure JobData where
  experienceLevel : String
  major : String
  targetJobTitle : Option String
deriving DecidableEq, Repr

/-- One entry of the optional `processingStages` array of the schema
(stage name, stage status string, timestamps, error text). -/
structure StageEntry where
  stage : String
  stageStatus : String
  startTime : Option Nat
  endTime : Option Nat
  error : Option String
deriving DecidableEq, Repr

/-- A persisted CVAnalysis document, with the fields the verified
operations read or write. `overallScore` and the textual fields are
`Option` because the schema leaves them unset until analysis completes;
`isActive`/`deletedAt` are the soft-delete fields. -/
structure CVRecord where
  id : Nat
  userId : Nat
  originalFilename : String
  filePath : String
  fileSize : Nat
  extractedText : String
  jobData : JobData
  overallScore : Option Int
  summary : Option JVal
  sections : JVal
  recommendations : JVal
  jobMatching : JVal
  marketInsights : JVal
  processingStatus : Status
  errorMessage : Option String
  processingStages : List StageEntry
  openaiProcessing : Option JVal
  isActive : Bool
  deletedAt : Option Nat

/-- Construct a new CVAnalysis document the way `new CVAnalysis({...})`
plus the pre-save hook do: `processingStatus` defaults to `pending`
(schema line 154) when the caller supplies none, and the soft-delete
fields default to `isActive = true`, `deletedAt` unset. -/
def newCVAnalysis (id userId : Nat) (originalFilename filePath : String)
    (fileSize : Nat) (extractedText : String) (jobData : JobData)
    (st : Option Status) : CVRecord :=
  { id := id
    userId := userId
    originalFilename := originalFilename
    filePath := filePath
    fileSize := fileSize
    extractedText := extractedText
    jobData := jobData
    overallScore := none
    summary := none
    sections := .obj []
    recommendations := .arr []
    jobMatching := .obj []
    marketInsights := .obj []
    processingStatus := st.getD .pending
    errorMessage := none
    processingStages := []
    openaiProcessing := none
    isActive := true
    deletedAt := none }

/-- Instance method `markAsCompleted` (cvanalysis model lines 268-277):
set the status to `completed` and close every in-progress stage. -/
def markAsCompleted (now : Nat) (r : CVRecord) : CVRecord :=
  { r with
    processingStatus := .completed
    processingStages := r.processingStages.map fun s =>
      if s.stageStatus = "in-progress" then
        { s with stageStatus := "completed", endTime := some now }
      else s }

/-- Close the first in-progress stage with a failure, as
`markAsFailed` does via `find` (cvanalysis model lines 281-286). -/
def failFirstInProgress (now : Nat) (msg : String) :
    List StageEntry → List StageEntry
  | [] => []
  | s :: rest =>
      if s.stageStatus = "in-progress" then
        { s with stageStatus := "failed", endTime := some now,
                 error := some msg } :: rest
      else s :: failFirstInProgress now msg rest

/-- Instance method `markAsFailed` (cvanalysis model lines 279-288):
set the status to `failed` and fail the first in-progress stage. -/
def markAsFailed (now : Nat) (msg : String) (r : CVRecord) : CVRecord :=
  { r with
    processingStatus := .failed
    processingStages := failFirstInProgress now msg r.processingStages }

/-- Instance method `softDelete` (cvanalysis model lines 310-314). -/
def softDelete (now : Nat) (r : CVRecord) : CVRecord :=
  { r with isActive := false, deletedAt := some now }

/-! Controller layer: cv-analyzer.controller.js. A MongoDB collection is
a list of documents; the uploads directory is a list of file paths. -/

/-- The persisted collection of CVAnalysis documents. -/
abbrev Store := List CVRecord

/-- `CVAnalysis.findOne({ _id: analysisId, userId })` — the ownership-
scoped lookup every per-record endpoint performs. -/
def findOneByIdAndUser (store : Store) (rid uid : Nat) : Option CVRecord :=
  store.find? fun r => r.id == rid && r.userId == uid

/-- `Model.prototype.save()` on an existing document: replace the stored
document with the same `_id`. -/
def saveRecord (store : Store) (r : CVRecord) : Store :=
  store.map fun x => if x.id == r.id then r else x

/-- An HTTP JSON response of the CV-analyzer endpoints. `dataRecord`
carries a full document (results endpoint), `dataId`/`dataStatus`/
`dataEstimate` carry the `{analysisId, status, estimatedCompletionTime}`
payload of upload and reanalyze. -/
structure HttpResponse where
  httpStatus : Nat
  success : Bool
  message : String
  dataRecord : Option CVRecord
  dataId : Option Nat
  dataStatus : Option Status
  dataEstimate : Option String

/-- The uniform 404 body `{success: false, message: "Analysis not found"}`
returned for a missing record and for another user's record alike. -/
def analysisNotFound : HttpResponse :=
  ⟨404, false, "Analysis not found", none, none, none, none⟩

/-- Truthiness of an optional string parameter (`undefined` and the empty
string are falsy). -/
def strTruthy : Option String → Bool
  | none => false
  | some s => !s.isEmpty

/-- The uploaded-file metadata multer attaches to the request. -/
structure FileInfo where
  originalname : String
  path : String
  size : Nat
deriving DecidableEq, Repr

/-- The request body of `uploadAndAnalyzeCV`; `none` models an absent
field. -/
structure UploadBody where
  experienceLevel : Option String
  major : Option String
  targetJobTitle : Option String
deriving DecidableEq, Repr

/-- The `jobData` built by `uploadAndAnalyzeCV` (controller lines 52-60):
`targetJobTitle` is included, trimmed, only when truthy with nonempty
trim. -/
def buildJobData (body : UploadBody) : JobData :=
  { experienceLevel := body.experienceLevel.getD ""
    major := body.major.getD ""
    targetJobTitle :=
      match body.targetJobTitle with
      | some t => if !t.isEmpty && !t.trim.isEmpty then some t.trim else none
      | none => none }

/-- `uploadAndAnalyzeCV` (controller lines 23-116) up to the HTTP
response: validate the fields and the file, then create the analysis
record with `processingStatus: 'processing'` (controller line 71) and
answer 202. The asynchronous `performAnalysis` run happens after this
response is sent and is modelled separately. -/
def uploadAndAnalyzeCV (store : Store) (newId uid : Nat) (body : UploadBody)
    (file? : Option FileInfo) : HttpResponse × Store :=
  if !strTruthy body.experienceLevel || !strTruthy body.major then
    (⟨400, false, "Experience level and major are required",
      none, none, none, none⟩, store)
  else
    match file? with
    | none => (⟨400, false, "No CV file uploaded", none, none, none, none⟩, store)
    | some f =>
        let analysis := newCVAnalysis newId uid f.originalname f.path f.size
          "Processing..." (buildJobData body) (some .processing)
        (⟨202, true, "CV uploaded successfully. Analysis is in progress.",
          none, some analysis.id, some analysis.processingStatus,
          some "2-3 minutes"⟩, store ++ [analysis])

/-- `getAnalysisResults` (controller lines 122-152): ownership-scoped
lookup, 404 when absent, otherwise the full document. -/
def getAnalysisResults (store : Store) (uid rid : Nat) : HttpResponse :=
  match findOneByIdAndUser store rid uid with
  | none => analysisNotFound
  | some r => ⟨200, true, "", some r, none, none, none⟩

/-- The jobData update performed by `reanalyzeCV` (controller lines
214-231): each provided truthy field overwrites, and a provided-but-
blank `targetJobTitle` deletes the stored title. -/
def updateJobData (jd : JobData) (exp maj tgt : Option String) : JobData :=
  if strTruthy exp || strTruthy maj || strTruthy tgt then
    let jd1 := match exp with
      | some e => if !e.isEmpty then { jd with experienceLevel := e } else jd
      | none => jd
    let jd2 := match maj with
      | some m => if !m.isEmpty then { jd1 with major := m } else jd1
      | none => jd1
    match tgt with
    | some t =>
        if !t.isEmpty && !t.trim.isEmpty then { jd2 with targetJobTitle := some t.trim }
        else { jd2 with targetJobTitle := none }
    | none => jd2
  else jd

/-- The reset performed by `reanalyzeCV` before rescheduling (controller
lines 233-242): status back to `processing`, previous results cleared. -/
def resetForReanalysis (r : CVRecord) (exp maj tgt : Option String) : CVRecord :=
  { r with
    jobData := updateJobData r.jobData exp maj tgt
    processingStatus := .processing
    overallScore := none
    summary := none
    sections := .obj []
    recommendations := .arr []
    jobMatching := .obj []
    marketInsights := .obj []
    openaiProcessing := none
    errorMessage := none }

/-- `reanalyzeCV` (controller lines 196-269) up to the HTTP response:
ownership-scoped lookup, 404 when absent; otherwise reset the record
(terminal or not) to `processing`, save it, and answer 200. The rerun it
schedules is modelled by `performAnalysis`. -/
def reanalyzeCV (store : Store) (uid rid : Nat) (exp maj tgt : Option String) :
    HttpResponse × Store :=
  match findOneByIdAndUser store rid uid with
  | none => (analysisNotFound, store)
  | some r =>
      let r' := resetForReanalysis r exp maj tgt
      (⟨200, true, "CV reanalysis started successfully",
        none, some r'.id, some r'.processingStatus, none⟩,
       saveRecord store r')

/-- `deleteAnalysis` (controller lines 275-315): ownership-scoped lookup,
404 when absent; otherwise unlink the stored file (failure tolerated)
and remove the document itself via `findByIdAndDelete`. Returns the
response, the remaining collection and the remaining files. -/
def deleteAnalysis (store : Store) (files : List String) (uid rid : Nat) :
    HttpResponse × Store × List String :=
  match findOneByIdAndUser store rid uid with
  | none => (analysisNotFound, store, files)
  | some r =>
      (⟨200, true, "Analysis deleted successfully", none, none, none, none⟩,
       store.filter (fun x => !(x.id == rid)),
       files.erase r.filePath)

/-- `markAnalysisAsFailed` (controller lines 429-440):
`findByIdAndUpdate(analysisId, {processingStatus: 'failed', errorMessage})`
— unconditional, whatever the current status. -/
def markAnalysisAsFailed (store : Store) (rid : Nat) (msg : String) : Store :=
  store.map fun r =>
    if r.id == rid then
      { r with processingStatus := .failed, errorMessage := some msg }
    else r

/-- The record-level effect of `markAnalysisAsFailed` on the targeted
document. -/
def markFailedRecord (r : CVRecord) (msg : String) : CVRecord :=
  { r with processingStatus := .failed, errorMessage := some msg }

/-- Read `overallScore` out of a validated response object, as
`aiResult.analysis?.overallScore` does. -/
def overallScoreOfFields (fields : JObj) : Option Int :=
  match lookupField fields "overallScore" with
  | some (.num n) => some n
  | _ => none

/-- `analyzeCV`/`analyzeCVComprehensive` (openai.service.js lines 44-119):
send the request through `makeAPICallWithRetry`; a successful response
(`call` succeeding with the optional message content) flows into
`parseAndValidateResponse`. Every thrown error is wrapped into
`OpenAIServiceError('CV analysis failed', ...)`, so the message that
reaches the controller is uniform. -/
def analyzeCV (p : String → Option JVal)
    (call : Nat → Except APIError (Option String)) : Except String JObj :=
  match (makeAPICallWithRetry call).1 with
  | .success content? =>
      match parseAndValidateResponse p content? with
      | .ok fields => .ok fields
      | .serviceError _ => .error "CV analysis failed"
  | .nonRetryable _ => .error "CV analysis failed"
  | .exhausted _ => .error "CV analysis failed"

/-- JavaScript `String.prototype.trim`: drop leading and trailing
whitespace (modelled structurally so concrete instances compute). -/
def jsTrim (s : String) : String :=
  String.mk (((s.toList.dropWhile Char.isWhitespace).reverse.dropWhile
    Char.isWhitespace).reverse)

/-- A truthiness-guarded field copy, as in
`if (aiResult.analysis?.sections) analysis.sections = ...`
(controller lines 397-411). -/
def copyIfTruthy (fields : JObj) (k : String) (old : JVal) : JVal :=
  match lookupField fields k with
  | some v => if v.truthy then v else old
  | none => old

/-- `performAnalysis` (controller lines 347-423) at the level of the
targeted record. `extraction` is the PDF text-extraction outcome and
`call` the AI SDK call outcomes; any thrown error lands in the catch
block, which marks the record failed via `markAnalysisAsFailed`. On
success the results are copied and the status set to `completed`
(controller line 412). -/
def performAnalysis (p : String → Option JVal)
    (extraction : Except String String)
    (call : Nat → Except APIError (Option String)) (r : CVRecord) : CVRecord :=
  match extraction with
  | .error msg => markFailedRecord r ("Failed to extract text from CV: " ++ msg)
  | .ok text =>
      let r1 := { r with extractedText := text }
      if (jsTrim text).isEmpty then
        markFailedRecord r1 "No text content found in the uploaded CV"
      else
        match analyzeCV p call with
        | .error msg => markFailedRecord r1 msg
        | .ok fields =>
            { r1 with
              overallScore := overallScoreOfFields fields
              summary := lookupField fields "summary"
              sections := copyIfTruthy fields "sections" r1.sections
              recommendations := copyIfTruthy fields "recommendations" r1.recommendations
              jobMatching := copyIfTruthy fields "jobMatching" r1.jobMatching
              marketInsights := copyIfTruthy fields "marketInsights" r1.marketInsights
              openaiProcessing := some (.obj [])
              processingStatus := .completed }

/-! History endpoint. The controller builds the query
`{ userId }` and, when the `status` query parameter is truthy, adds the
condition `query.status = status` (controller lines 163-166) — note the
path `status`, which does not exist in the CVAnalysis schema (the schema
field is `processingStatus`). Mongoose resolves a query condition on a
path missing from the schema according to its `strictQuery` setting, so
both behaviours are embedded. -/

/-- The query object `getAnalysisHistory` passes to `paginate`. -/
structure HistoryQuery where
  userId : Nat
  statusCond : Option String
deriving DecidableEq, Repr

/-- The string stored for each `processingStatus` enum value. -/
def statusToString : Status → String
  | .pending => "pending"
  | .processing => "processing"
  | .completed => "completed"
  | .failed => "failed"

/-- Build the controller's query (controller lines 163-166). -/
def buildHistoryQuery (uid : Nat) (statusParam : Option String) : HistoryQuery :=
  { userId := uid
    statusCond := if strTruthy statusParam then statusParam else none }

/-- Query semantics with `strictQuery` in filtering mode (the mongoose 6
default): conditions on paths absent from the schema are silently
dropped, so only the `userId` condition remains. -/
def matchesDropUnknown (q : HistoryQuery) (r : CVRecord) : Bool :=
  r.userId == q.userId

/-- Query semantics with `strictQuery` disabled (the mongoose 7 default):
the `status` condition is kept, and since no document carries a `status`
path it can never be satisfied. -/
def matchesKeepUnknown (q : HistoryQuery) (r : CVRecord) : Bool :=
  r.userId == q.userId &&
    (match q.statusCond with
     | none => true
     | some _ => false)

/-- The query the spec (and the repository's own test suite) intends:
filter on the schema's `processingStatus` field. -/
def matchesIntendedStatus (q : HistoryQuery) (r : CVRecord) : Bool :=
  r.userId == q.userId &&
    (match q.statusCond with
     | none => true
     | some s => statusToString r.processingStatus == s)

/-- One returned history document. The projection
`select: '-extractedText -aiAnalysis.rawResponse'` (controller line 172)
excludes the raw extracted text, so the returned shape omits it. -/
structure HistoryDoc where
  id : Nat
  userId : Nat
  processingStatus : Status
  overallScore : Option Int
deriving DecidableEq, Repr

/-- Apply the history projection to a document. -/
def toHistoryDoc (r : CVRecord) : HistoryDoc :=
  ⟨r.id, r.userId, r.processingStatus, r.overallScore⟩

/-- `getAnalysisHistory` (controller lines 158-190) under a given query
semantics: the full filtered result set, of which `paginate` serves
pages. -/
def getAnalysisHistory (queryMatch : HistoryQuery → CVRecord → Bool)
    (store : Store) (uid : Nat) (statusParam : Option String) : List HistoryDoc :=
  (store.filter (queryMatch (buildHistoryQuery uid statusParam))).map toHistoryDoc

/-! Accessors used to state the claims. -/

/-- `overallScore` of a parsed response value. -/
def jsonOverallScore : JVal → Option Int
  | .obj fields => overallScoreOfFields fields
  | _ => none

/-- Length of the `recommendations` array of a parsed response value. -/
def recommendationCount : JVal → Option Nat
  | .obj fields =>
      match lookupField fields "recommendations" with
      | some (.arr xs) => some xs.length
      | _ => none
  | _ => none

/-- The `summary.strengths` string of a parsed response value. -/
def summaryStrengths : JVal → Option String
  | .obj fields =>
      match lookupField fields "summary" with
      | some (.obj s) =>
          match lookupField s "strengths" with
          | some (.str str) => some str
          | _ => none
      | _ => none
  | _ => none

/-- The numeric `score` of the named section of a response object. -/
def sectionScore (resp : JObj) (name : String) : Option Int :=
  match lookupField resp "sections" with
  | some (.obj secs) =>
      match lookupField secs name with
      | some (.obj s) =>
          match lookupField s "score" with
          | some (.num n) => some n
          | _ => none
      | _ => none
  | _ => none

/-! Generic lemmas about object property access. -/

theorem lookupField_setField_self (f : JObj) (k : String) (v : JVal) :
    lookupField (setField f k v) k = some v := by
  induction f with
  | nil => simp [setField, lookupField]
  | cons hd tl ih =>
      obtain ⟨k', v'⟩ := hd
      by_cases h : k' = k
      · simp [setField, h, lookupField]
      · simp [setField, h, lookupField, ih]

theorem lookupField_setField_ne (f : JObj) (k k' : String) (v : JVal)
    (h : k' ≠ k) : lookupField (setField f k v) k' = lookupField f k' := by
  induction f with
  | nil => simp [setField, lookupField, Ne.symm h]
  | cons hd tl ih =>
      obtain ⟨k₀, v₀⟩ := hd
      by_cases hk : k₀ = k
      · subst hk
        simp [setField, lookupField, Ne.symm h]
      · simp [setField, hk, lookupField, ih]

theorem lookupField_ensureTruthy_ne (k k' : String) (d : JVal) (f : JObj)
    (h : k' ≠ k) : lookupField (ensureTruthy k d f) k' = lookupField f k' := by
  unfold ensureTruthy
  split
  · rfl
  · exact lookupField_setField_ne f k k' d h

theorem lookupField_ensurePresent_ne (k k' : String) (d : JVal) (f : JObj)
    (h : k' ≠ k) : lookupField (ensurePresent k d f) k' = lookupField f k' := by
  unfold ensurePresent
  split
  · rfl
  · exact lookupField_setField_ne f k k' d h

theorem ensureTruthy_of_truthy (k : String) (d : JVal) (f : JObj)
    (h : truthyOpt (lookupField f k) = true) : ensureTruthy k d f = f := by
  unfold ensureTruthy
  simp [h]

theorem lookupField_clampOverallScore_ne (f : JObj) (k' : String)
    (h : k' ≠ "overallScore") :
    lookupField (clampOverallScore f) k' = lookupField f k' := by
  unfold clampOverallScore
  split
  · exact lookupField_setField_ne f "overallScore" k' _ h
  · exact lookupField_setField_ne f "overallScore" k' _ h

/-! Claim C2. -/

/-- C2, counterexample: a model payload whose `atsCompatibility` section
score is 150 while `overallScore` is in range. -/
def respC2 : JObj :=
  [("overallScore", .num 50),
   ("sections", .obj [("atsCompatibility", .obj [("score", .num 150)])])]

/-- C2 is false as stated: after `validateResponseStructure` the
`atsCompatibility` section score of `respC2` is still 150, outside
[0,100] — validation neither clamps nor defaults per-section scores. -/
theorem section_score_not_clamped :
    sectionScore (validateResponseStructure respC2) "atsCompatibility" = some 150
    ∧ ¬((150 : Int) ≤ 100) := by
  exact ⟨rfl, by decide⟩

/-- C2 (amended): after `validateResponseStructure`, `overallScore` is a
number in [0,100] — clamped when numeric, defaulted to 75 otherwise —
but the `sections` object is passed through exactly as supplied by the
model whenever it is truthy, so per-section scores are not validated. -/
theorem only_overall_score_clamped (resp : JObj) :
    (∃ n : Int,
        lookupField (validateResponseStructure resp) "overallScore" = some (.num n)
        ∧ 0 ≤ n ∧ n ≤ 100)
    ∧ (truthyOpt (lookupField resp "sections") = true →
        lookupField (validateResponseStructure resp) "sections" =
          lookupField resp "sections") := by
  constructor
  · unfold validateResponseStructure clampOverallScore
    split
    · next n _ =>
        refine ⟨max 0 (min 100 n), lookupField_setField_self _ _ _, le_max_left 0 _, ?_⟩
        exact max_le (by norm_num) (min_le_left 100 n)
    · exact ⟨75, lookupField_setField_self _ _ _, by norm_num, by norm_num⟩
  · intro h
    unfold validateResponseStructure
    have h1 : lookupField (ensurePresent "overallScore" (.num 75) resp) "sections" =
        lookupField resp "sections" :=
      lookupField_ensurePresent_ne _ _ _ _ (by decide)
    have h2 : lookupField (ensureTruthy "summary" defaultSummary
        (ensurePresent "overallScore" (.num 75) resp)) "sections" =
        lookupField resp "sections" := by
      rw [lookupField_ensureTruthy_ne _ _ _ _ (by decide), h1]
    rw [lookupField_clampOverallScore_ne _ _ (by decide),
        lookupField_ensureTruthy_ne _ _ _ _ (by decide),
        lookupField_ensureTruthy_ne _ _ _ _ (by decide),
        lookupField_ensureTruthy_ne _ _ _ _ (by decide),
        ensureTruthy_of_truthy _ _ _ (by rw [h2]; exact h), h2]

/-- C2 (amended), witness: on `respC2` the truthy `sections` object is
passed through unchanged by validation. -/
theorem only_overall_score_clamped_witness :
    lookupField (validateResponseStructure respC2) "sections" =
      lookupField respC2 "sections" :=
  (only_overall_score_clamped respC2).2 (by decide)

/-! Claim C5. -/

/-- C5, counterexample: on a response body with no embedded JSON object
the parse step does return the fallback structure, but its
`recommendations` array contains one generic recommendation — it is not
empty as claimed. -/
theorem fallback_recommendations_nonempty :
    recommendationCount
      (extractJsonFromContent (fun _ => none)
        "The analysis could not be generated in the requested format.") = some 1
    ∧ some 1 ≠ (some 0 : Option Nat) := by
  exact ⟨rfl, by decide⟩

/-- C5 (amended): for every response body whose brace-delimited substring
is absent or fails to parse, `extractJsonFromContent` returns — without
throwing — the degraded `createFallbackStructure` result: default
overall score 75, a generic summary, and a recommendation list
containing exactly one generic recommendation. -/
theorem fallback_structure_amended (p : String → Option JVal) (content : String)
    (h : braceMatch content = none
         ∨ ∃ m, braceMatch content = some m ∧ p m = none) :
    extractJsonFromContent p content = createFallbackStructure content
    ∧ jsonOverallScore (createFallbackStructure content) = some 75
    ∧ summaryStrengths (createFallbackStructure content) = some "CV analysis completed"
    ∧ recommendationCount (createFallbackStructure content) = some 1 := by
  refine ⟨?_, rfl, rfl, rfl⟩
  unfold extractJsonFromContent
  rcases h with h | ⟨m, hm, hp⟩
  · rw [h]
  · simp only [hm, hp]

/-- C5 (amended), witness: a concrete brace-free body takes the fallback
path. -/
theorem fallback_structure_amended_witness :
    extractJsonFromContent (fun _ => none) "I cannot produce JSON for this CV." =
      createFallbackStructure "I cannot produce JSON for this CV." :=
  (fallback_structure_amended (fun _ => none) "I cannot produce JSON for this CV."
    (Or.inl (by decide))).1

/-! Claim C10. -/

/-- C10: a missing or empty message content makes
`parseAndValidateResponse` raise `OpenAIServiceError` rather than
produce the degraded fallback; the extraction-and-fallback path is
entered only for a non-empty content string on which `JSON.parse`
fails. -/
theorem empty_content_rejected (p : String → Option JVal) :
    parseAndValidateResponse p none =
      .serviceError "Invalid response format from OpenAI"
    ∧ parseAndValidateResponse p (some "") =
      .serviceError "Invalid response format from OpenAI"
    ∧ (∀ c v, c.isEmpty = false → p c = some v →
        parseAndValidateResponse p (some c) = applyValidate v)
    ∧ (∀ c, c.isEmpty = false → p c = none →
        parseAndValidateResponse p (some c) =
          applyValidate (extractJsonFromContent p c)) := by
  refine ⟨rfl, rfl, ?_, ?_⟩
  · intro c v hc hp
    unfold parseAndValidateResponse
    simp only [hc, hp, Bool.false_eq_true, if_false]
  · intro c hc hp
    unfold parseAndValidateResponse
    simp only [hc, hp, Bool.false_eq_true, if_false]

/-- C10, witness: a concrete non-empty unparseable content reaches the
extraction path while the empty content raises the service error. -/
theorem empty_content_rejected_witness :
    parseAndValidateResponse (fun _ => none) (some "plain text") =
      applyValidate (extractJsonFromContent (fun _ => none) "plain text") :=
  (empty_content_rejected (fun _ => none)).2.2.2 "plain text" rfl rfl

/-! Claim C6. -/

theorem runRetry_succ {α : Type} (call : Nat → Except APIError α)
    (lastErr : APIError) (attempt rcount : Nat) :
    runRetry call lastErr attempt (rcount + 1) =
      match call attempt with
      | .ok v => (.success v, 1, [])
      | .error e =>
          if isNonRetryableError e then (.nonRetryable e, 1, [])
          else if rcount = 0 then (.exhausted e, 1, [])
          else
            let rest := runRetry call e (attempt + 1) rcount
            (rest.1, rest.2.1 + 1, backoffDelay attempt :: rest.2.2) := rfl

/-- A sample record in the `processing` state, used to instantiate the
store-level theorems. -/
def sampleRecord : CVRecord :=
  newCVAnalysis 1 1 "resume.pdf" "uploads/cv-analyzer/resume.pdf" 2048
    "Processing..." ⟨"mid", "Computer Science", none⟩ (some .processing)

/-- C6: when every SDK call fails with a retryable error, exactly
`retryAttempts = 3` calls are made (never a fourth), the sleeps inserted
between consecutive attempts are `[1000, 2000]` ms — non-decreasing and
each at most `maxRetryDelay = 30000` — the loop ends by throwing the
exhaustion error, and `performAnalysis` then marks the record failed. -/
theorem retry_exhaustion_behavior (call : Nat → Except APIError (Option String))
    (p : String → Option JVal) (r : CVRecord) (text : String)
    (hfail : ∀ i, i < retryAttempts →
      ∃ e, call i = .error e ∧ isNonRetryableError e = false)
    (htext : (jsTrim text).isEmpty = false) :
    (makeAPICallWithRetry call).2.1 = retryAttempts
    ∧ (makeAPICallWithRetry call).2.2 = [1000, 2000]
    ∧ List.Chain' (· ≤ ·) (makeAPICallWithRetry call).2.2
    ∧ (∀ d ∈ (makeAPICallWithRetry call).2.2, d ≤ maxRetryDelay)
    ∧ (∃ e, (makeAPICallWithRetry call).1 = RetryResult.exhausted e)
    ∧ (performAnalysis p (.ok text) call r).processingStatus = Status.failed := by
  obtain ⟨e0, h0, n0⟩ := hfail 0 (by decide)
  obtain ⟨e1, h1, n1⟩ := hfail 1 (by decide)
  obtain ⟨e2, h2, n2⟩ := hfail 2 (by decide)
  have key : makeAPICallWithRetry call = (.exhausted e2, 3, [1000, 2000]) := by
    unfold makeAPICallWithRetry retryAttempts
    rw [show (3 : Nat) = 2 + 1 from rfl, runRetry_succ, h0]
    simp only [n0, Bool.false_eq_true, if_false]
    rw [show (2 : Nat) = 1 + 1 from rfl, runRetry_succ, h1]
    simp only [n1, Bool.false_eq_true, if_false]
    rw [show (1 : Nat) = 0 + 1 from rfl, runRetry_succ, h2]
    simp only [n2, Bool.false_eq_true, if_false, if_pos rfl]
    simp [backoffDelay, retryDelay, maxRetryDelay]
  have hcalls : (makeAPICallWithRetry call).2.1 = 3 := by rw [key]
  have hdelays : (makeAPICallWithRetry call).2.2 = [1000, 2000] := by rw [key]
  have hres : (makeAPICallWithRetry call).1 = RetryResult.exhausted e2 := by rw [key]
  refine ⟨hcalls, hdelays, ?_, ?_, ⟨e2, hres⟩, ?_⟩
  · rw [hdelays]
    simp [List.chain'_cons]
  · rw [hdelays]
    intro d hd
    simp only [List.mem_cons, List.not_mem_nil, or_false] at hd
    rcases hd with rfl | rfl <;> decide
  · unfold performAnalysis
    simp only [htext, Bool.false_eq_true, if_false]
    unfold analyzeCV
    rw [hres]
    rfl

/-- C6, witness: the concrete always-500 call sequence makes exactly
three attempts and the record ends failed. -/
theorem retry_exhaustion_behavior_witness :
    (makeAPICallWithRetry (fun _ => .error ⟨some 500⟩ :
        Nat → Except APIError (Option String))).2.1 = retryAttempts
    ∧ (performAnalysis (fun _ => none) (.ok "cv text")
        (fun _ => .error ⟨some 500⟩) sampleRecord).processingStatus =
      Status.failed := by
  have h := retry_exhaustion_behavior (fun _ => .error ⟨some 500⟩)
    (fun _ => none) sampleRecord "cv text"
    (fun i _ => ⟨⟨some 500⟩, rfl, rfl⟩) (by decide)
  exact ⟨h.1, h.2.2.2.2.2⟩

/-! Claim C7. -/

theorem findOneByIdAndUser_eq_none (store : Store) (rid uid : Nat)
    (h : ∀ r ∈ store, r.id = rid → r.userId ≠ uid) :
    findOneByIdAndUser store rid uid = none := by
  unfold findOneByIdAndUser
  rw [List.find?_eq_none]
  intro r hr
  simp only [Bool.and_eq_true, beq_iff_eq, not_and]
  exact h r hr

/-- C7: for a requester `a` who owns no record with the requested id —
in particular when the record belongs to another user, or when no record
with that id exists at all — fetch, reanalyze and delete all return the
identical "Analysis not found" 404 body with no record data, leaving the
store and files untouched, and every history entry returned to `a`
(under either mongoose query semantics) belongs to `a`. -/
theorem ownership_isolation (store : Store) (files : List String) (a rid : Nat)
    (hb : ∀ r ∈ store, r.id = rid → r.userId ≠ a) :
    getAnalysisResults store a rid = analysisNotFound
    ∧ reanalyzeCV store a rid none none none = (analysisNotFound, store)
    ∧ deleteAnalysis store files a rid = (analysisNotFound, store, files)
    ∧ (∀ sf d, d ∈ getAnalysisHistory matchesDropUnknown store a sf → d.userId = a)
    ∧ (∀ sf d, d ∈ getAnalysisHistory matchesKeepUnknown store a sf → d.userId = a) := by
  have hfind := findOneByIdAndUser_eq_none store rid a hb
  refine ⟨?_, ?_, ?_, ?_, ?_⟩
  · unfold getAnalysisResults
    rw [hfind]
  · unfold reanalyzeCV
    rw [hfind]
  · unfold deleteAnalysis
    rw [hfind]
  · intro sf d hd
    unfold getAnalysisHistory at hd
    simp only [List.mem_map, List.mem_filter] at hd
    obtain ⟨r, ⟨_, hm⟩, hrd⟩ := hd
    unfold matchesDropUnknown buildHistoryQuery at hm
    simp only [beq_iff_eq] at hm
    rw [← hrd]
    exact hm
  · intro sf d hd
    unfold getAnalysisHistory at hd
    simp only [List.mem_map, List.mem_filter] at hd
    obtain ⟨r, ⟨_, hm⟩, hrd⟩ := hd
    unfold matchesKeepUnknown buildHistoryQuery at hm
    simp only [Bool.and_eq_true, beq_iff_eq] at hm
    rw [← hrd]
    exact hm.1

/-- C7, witness: with the store holding only user 2's record, user 1
requesting that record's id receives exactly the not-found response. -/
theorem ownership_isolation_witness :
    getAnalysisResults [{ sampleRecord with id := 7, userId := 2 }] 1 7 =
      analysisNotFound
    ∧ deleteAnalysis [{ sampleRecord with id := 7, userId := 2 }]
        ["uploads/cv-analyzer/resume.pdf"] 1 7 =
      (analysisNotFound, [{ sampleRecord with id := 7, userId := 2 }],
        ["uploads/cv-analyzer/resume.pdf"]) := by
  have h := ownership_isolation [{ sampleRecord with id := 7, userId := 2 }]
    ["uploads/cv-analyzer/resume.pdf"] 1 7
    (by intro r hr; simp only [List.mem_singleton] at hr; subst hr; intro _; decide)
  exact ⟨h.1, h.2.2.1⟩

/-! Claim C1. -/

/-- A completed record owned by user 1, as left by a successful run. -/
def completedRecord : CVRecord :=
  { sampleRecord with processingStatus := Status.completed, overallScore := some 88 }

/-- C1 is false as stated: a record whose status is the terminal
`completed` is reset to `processing` by the owner's reanalyze request,
so the observed status sequence contains `completed` followed by
`processing`. -/
theorem reanalyze_resets_completed_record :
    completedRecord.processingStatus = Status.completed
    ∧ ((reanalyzeCV [completedRecord] 1 1 none none none).2.map
        (·.processingStatus)) = [Status.processing]
    ∧ Status.processing ≠ Status.completed := ⟨rfl, rfl, by decide⟩

/-- C1 (amended): statuses evolve per analysis run rather than once per
record — upload creates the record directly in `processing` (never
`pending`), a run moves it from `processing` to `completed` or `failed`,
and terminal statuses are not absorbing: reanalyze resets any record,
a terminal one included, back to `processing` before starting a new
run. -/
theorem status_lifecycle_amended (store : Store) (newId uid : Nat)
    (body : UploadBody) (f : FileInfo) (r : CVRecord)
    (exp maj tgt : Option String) (p : String → Option JVal)
    (extraction : Except String String)
    (call : Nat → Except APIError (Option String))
    (h1 : strTruthy body.experienceLevel = true)
    (h2 : strTruthy body.major = true) :
    (∃ created, (uploadAndAnalyzeCV store newId uid body (some f)).2 =
        store ++ [created] ∧ created.processingStatus = Status.processing)
    ∧ ((performAnalysis p extraction call r).processingStatus = Status.completed
       ∨ (performAnalysis p extraction call r).processingStatus = Status.failed)
    ∧ (resetForReanalysis r exp maj tgt).processingStatus = Status.processing
    ∧ (r.processingStatus = Status.completed ∨ r.processingStatus = Status.failed →
       (resetForReanalysis r exp maj tgt).processingStatus ≠ r.processingStatus) := by
  refine ⟨?_, ?_, rfl, ?_⟩
  · unfold uploadAndAnalyzeCV
    rw [h1, h2]
    exact ⟨_, rfl, rfl⟩
  · unfold performAnalysis
    rcases extraction with msg | text
    · right; rfl
    · dsimp only
      by_cases ht : (jsTrim text).isEmpty
      · simp only [ht, if_true]
        right; rfl
      · simp only [ht, Bool.false_eq_true, if_false]
        rcases hAI : analyzeCV p call with msg | fields
        · right; rfl
        · left; rfl
  · intro h
    rcases h with h | h <;> rw [h]
    · exact (by decide : Status.processing ≠ Status.completed)
    · exact (by decide : Status.processing ≠ Status.failed)

/-- C1 (amended), witness: a failed record is reset to `processing` by
reanalysis, changing its terminal status. -/
theorem status_lifecycle_amended_witness :
    (resetForReanalysis { sampleRecord with processingStatus := Status.failed }
      none none none).processingStatus ≠ Status.failed :=
  (status_lifecycle_amended [] 1 1 ⟨some "mid", some "Computer Science", none⟩
    ⟨"cv.pdf", "uploads/cv.pdf", 100⟩
    { sampleRecord with processingStatus := Status.failed }
    none none none (fun _ => none) (.ok "text") (fun _ => .ok none)
    rfl rfl).2.2.2 (Or.inr rfl)

/-! Claim C3. -/

/-- A well-formed upload request body. -/
def uploadBodyW : UploadBody := ⟨some "mid", some "Computer Science", none⟩

/-- A well-formed uploaded file. -/
def fileW : FileInfo := ⟨"resume.pdf", "uploads/cv-analyzer/resume-123.pdf", 2048⟩

/-- C3 is false as stated: the successful upload answers 202, but the
record it stores already has status `processing`, not `pending` —
controller line 71 sets `processingStatus: 'processing'` at creation. -/
theorem upload_creates_processing_record :
    (uploadAndAnalyzeCV [] 9 1 uploadBodyW (some fileW)).1.httpStatus = 202
    ∧ ((uploadAndAnalyzeCV [] 9 1 uploadBodyW (some fileW)).2.map
        (·.processingStatus)) = [Status.processing]
    ∧ Status.processing ≠ Status.pending := ⟨rfl, rfl, by decide⟩

/-- C3 (amended): every successful upload returns 202 whose body reports
status `processing`, and the record persisted at that moment — before
any analysis stage has run — has status `processing` (the schema default
`pending` is bypassed) and the placeholder extracted text. -/
theorem upload_status_processing (store : Store) (newId uid : Nat)
    (body : UploadBody) (f : FileInfo)
    (h1 : strTruthy body.experienceLevel = true)
    (h2 : strTruthy body.major = true) :
    ∃ created,
      uploadAndAnalyzeCV store newId uid body (some f) =
        (⟨202, true, "CV uploaded successfully. Analysis is in progress.",
          none, some newId, some Status.processing, some "2-3 minutes"⟩,
         store ++ [created])
      ∧ created.processingStatus = Status.processing
      ∧ created.extractedText = "Processing..." := by
  unfold uploadAndAnalyzeCV
  rw [h1, h2]
  exact ⟨_, rfl, rfl, rfl⟩

/-- C3 (amended), witness. -/
theorem upload_status_processing_witness :
    ∃ created,
      uploadAndAnalyzeCV [] 3 1 uploadBodyW (some fileW) =
        (⟨202, true, "CV uploaded successfully. Analysis is in progress.",
          none, some 3, some Status.processing, some "2-3 minutes"⟩,
         [] ++ [created])
      ∧ created.processingStatus = Status.processing
      ∧ created.extractedText = "Processing..." :=
  upload_status_processing [] 3 1 uploadBodyW fileW rfl rfl

/-! Claim C4. -/

/-- C4 is false as stated: after `markAsCompleted`, a `markAsFailed` call
is applied over it — the record ends `failed`, not in the state set by
the first terminal write. -/
theorem terminal_write_overwrites :
    (markAsCompleted 3 sampleRecord).processingStatus = Status.completed
    ∧ (markAsFailed 5 "analysis failed"
        (markAsCompleted 3 sampleRecord)).processingStatus = Status.failed
    ∧ Status.failed ≠ Status.completed := ⟨rfl, rfl, by decide⟩

/-- C4 (amended): `markAsCompleted` and `markAsFailed` assign the status
unconditionally — repeating the same write is a no-op on the status, but
a terminal write of the other kind (including the controller's
`markAnalysisAsFailed` update) overwrites the previously set terminal
status. -/
theorem terminal_writes_unconditional (r : CVRecord) (t1 t2 : Nat)
    (m1 m2 : String) :
    (markAsCompleted t2 (markAsCompleted t1 r)).processingStatus = Status.completed
    ∧ (markAsFailed t2 m2 (markAsFailed t1 m1 r)).processingStatus = Status.failed
    ∧ (markAsFailed t2 m2 (markAsCompleted t1 r)).processingStatus = Status.failed
    ∧ (markAsCompleted t2 (markAsFailed t1 m1 r)).processingStatus = Status.completed
    ∧ (markFailedRecord (markAsCompleted t1 r) m1).processingStatus = Status.failed :=
  ⟨rfl, rfl, rfl, rfl, rfl⟩

/-! Claim C8. -/

/-- C8 is false as stated: deleting an owned completed record removes the
document from the store entirely (and unlinks the file) — nothing is
retained with a soft-delete flag. -/
theorem delete_removes_record :
    (deleteAnalysis [{ sampleRecord with processingStatus := Status.completed }]
      ["uploads/cv-analyzer/resume.pdf"] 1 1).2.1 = []
    ∧ (deleteAnalysis [{ sampleRecord with processingStatus := Status.completed }]
        ["uploads/cv-analyzer/resume.pdf"] 1 1).2.2 = []
    ∧ (deleteAnalysis [{ sampleRecord with processingStatus := Status.completed }]
        ["uploads/cv-analyzer/resume.pdf"] 1 1).1.httpStatus = 200 :=
  ⟨rfl, rfl, rfl⟩

/-- C8 (amended): the user-facing delete is a hard delete — when the
caller owns the record, the endpoint answers 200, unlinks the stored
file and removes the document itself via `findByIdAndDelete`, so no
record with that id remains; the schema's `softDelete` helper is not
what the endpoint performs. -/
theorem delete_is_hard_delete (store : Store) (files : List String)
    (uid rid : Nat) (r : CVRecord)
    (h : findOneByIdAndUser store rid uid = some r) :
    deleteAnalysis store files uid rid =
      (⟨200, true, "Analysis deleted successfully", none, none, none, none⟩,
       store.filter (fun x => !(x.id == rid)), files.erase r.filePath)
    ∧ (∀ x ∈ (deleteAnalysis store files uid rid).2.1, x.id ≠ rid) := by
  have hd : deleteAnalysis store files uid rid =
      (⟨200, true, "Analysis deleted successfully", none, none, none, none⟩,
       store.filter (fun x => !(x.id == rid)), files.erase r.filePath) := by
    unfold deleteAnalysis
    rw [h]
  refine ⟨hd, ?_⟩
  rw [hd]
  intro x hx
  simp only [List.mem_filter, Bool.not_eq_eq_eq_not, Bool.not_true,
    beq_eq_false_iff_ne] at hx
  exact hx.2

/-- C8 (amended), witness. -/
theorem delete_is_hard_delete_witness :
    deleteAnalysis [sampleRecord] ["uploads/cv-analyzer/resume.pdf"] 1 1 =
      (⟨200, true, "Analysis deleted successfully", none, none, none, none⟩,
       [sampleRecord].filter (fun x => !(x.id == 1)),
       ["uploads/cv-analyzer/resume.pdf"].erase sampleRecord.filePath) :=
  (delete_is_hard_delete [sampleRecord] ["uploads/cv-analyzer/resume.pdf"]
    1 1 sampleRecord rfl).1

/-! Claim C9. -/

/-- The failing input for the history status filter: the caller owns a
completed record and a processing record. -/
def storeC9 : Store :=
  [{ sampleRecord with id := 1, processingStatus := Status.completed },
   { sampleRecord with id := 2, processingStatus := Status.processing }]

/-- C9, evaluation at the failing input: requesting
`history?status=completed` filters on a `status` path absent from the
schema, so under mongoose strictQuery filtering the condition is dropped
(both records come back, the processing one included) and under
non-strict semantics it is unsatisfiable (nothing comes back) — never
the claimed "exactly the completed records", which the intended
`processingStatus` query would produce. -/
theorem history_status_filter_mismatch :
    getAnalysisHistory matchesDropUnknown storeC9 1 (some "completed") =
      [toHistoryDoc { sampleRecord with id := 1, processingStatus := Status.completed },
       toHistoryDoc { sampleRecord with id := 2, processingStatus := Status.processing }]
    ∧ getAnalysisHistory matchesKeepUnknown storeC9 1 (some "completed") = []
    ∧ getAnalysisHistory matchesIntendedStatus storeC9 1 (some "completed") =
      [toHistoryDoc { sampleRecord with id := 1, processingStatus := Status.completed }] :=
  ⟨rfl, rfl, rfl⟩

end JobHive
